import Mathlib

/-!
Shallow embedding of the media-catalog backend (src/backend/server.js).

The backend keeps three Mongoose collections (Series, Season, Episode) and
exposes REST handlers over them.  Collections are modelled as Lean lists in
insertion order; Mongo single-document operations (findOne, findOneAndUpdate,
findOneAndDelete) act on the first list element matching the filter, and
deleteMany / find filter the whole list, which matches Mongo semantics on an
unindexed natural-key lookup.  Request bodies are modelled as payload records
with one Option field per schema path (None = the JSON field is absent), so
that required-field validation and Mongoose update semantics can be stated
exactly.  Mongoose findOneAndUpdate with a plain object update performs a
$set of exactly the paths present in the object (it is not a full-document
replacement), which applySeriesUpdate / applySeasonUpdate / applyEpisodeUpdate
reproduce.  Mongoose insertMany validates every document before inserting and
rejects the whole batch on the first validation failure, which
validateEpisodes reproduces.
-/

namespace ContentServer

/-- A stored Series document (seriesSchema): name and thumbnail are required,
description defaults to the empty string, type defaults to "series". -/
structure Series where
  name : String
  thumbnail : String
  description : String
  type : String
deriving Repr, DecidableEq

/-- A stored Season document (seasonSchema): seriesName, seasonNumber and
title are required; description and thumbnail default to the empty string. -/
structure Season where
  seriesName : String
  seasonNumber : Int
  title : String
  description : String
  thumbnail : String
deriving Repr, DecidableEq

/-- A stored Episode document (episodeSchema): seriesName, seasonNumber,
episodeNumber, title and streamingUrl are required; description, thumbnail
and duration default to the empty string; airDate defaults to null. -/
structure Episode where
  seriesName : String
  seasonNumber : Int
  episodeNumber : Int
  title : String
  description : String
  streamingUrl : String
  thumbnail : String
  duration : String
  airDate : Option Int
deriving Repr, DecidableEq

/-- A Series request body: each schema path is present or absent. -/
structure SeriesPayload where
  name : Option String
  thumbnail : Option String
  description : Option String
  type : Option String
deriving Repr, DecidableEq

/-- A Season request body. -/
structure SeasonPayload where
  seriesName : Option String
  seasonNumber : Option Int
  title : Option String
  description : Option String
  thumbnail : Option String
deriving Repr, DecidableEq

/-- An Episode request body.  airDate distinguishes an absent field
(outer none) from an explicit null (some none). -/
structure EpisodePayload where
  seriesName : Option String
  seasonNumber : Option Int
  episodeNumber : Option Int
  title : Option String
  description : Option String
  streamingUrl : Option String
  thumbnail : Option String
  duration : Option String
  airDate : Option (Option Int)
deriving Repr, DecidableEq

/-- Mongoose document construction + validation for `new Series(body)`:
required paths must be present, optional paths take their schema default. -/
def mkSeries (p : SeriesPayload) : Option Series :=
  match p.name, p.thumbnail with
  | some n, some t =>
      some { name := n, thumbnail := t, description := p.description.getD "",
             type := p.type.getD "series" }
  | _, _ => none

/-- Mongoose document construction + validation for `new Season(body)`. -/
def mkSeason (p : SeasonPayload) : Option Season :=
  match p.seriesName, p.seasonNumber, p.title with
  | some sn, some k, some t =>
      some { seriesName := sn, seasonNumber := k, title := t,
             description := p.description.getD "", thumbnail := p.thumbnail.getD "" }
  | _, _, _ => none

/-- Mongoose document construction + validation for `new Episode(body)`. -/
def mkEpisode (p : EpisodePayload) : Option Episode :=
  match p.seriesName, p.seasonNumber, p.episodeNumber, p.title, p.streamingUrl with
  | some sn, some k, some en, some t, some url =>
      some { seriesName := sn, seasonNumber := k, episodeNumber := en, title := t,
             description := p.description.getD "", streamingUrl := url,
             thumbnail := p.thumbnail.getD "", duration := p.duration.getD "",
             airDate := p.airDate.getD none }
  | _, _, _, _, _ => none

/-- The persistent store: the three collections, in insertion order. -/
structure Store where
  series : List Series
  seasons : List Season
  episodes : List Episode
deriving Repr, DecidableEq

/-- Mongo findOne: first document matching the filter. -/
def findFirst {α : Type} (p : α → Bool) : List α → Option α
  | [] => none
  | x :: xs => if p x then some x else findFirst p xs

/-- Mongo findOneAndDelete: remove the first document matching the filter,
returning it together with the remaining collection. -/
def extractFirst {α : Type} (p : α → Bool) : List α → Option (α × List α)
  | [] => none
  | x :: xs =>
    if p x then some (x, xs)
    else
      match extractFirst p xs with
      | none => none
      | some (d, rest) => some (d, x :: rest)

/-- Mongo findOneAndUpdate (with `new: true`): rewrite the first document
matching the filter, returning the updated document and the new collection. -/
def updateFirst {α : Type} (p : α → Bool) (f : α → α) : List α → Option (α × List α)
  | [] => none
  | x :: xs =>
    if p x then some (f x, f x :: xs)
    else
      match updateFirst p f xs with
      | none => none
      | some (u, rest) => some (u, x :: rest)

/-- Store-order season lookup, Season.find on seriesName. -/
def findSeasons (st : Store) (n : String) : List Season :=
  st.seasons.filter (fun s => s.seriesName == n)

/-- Store-order episode lookup, Episode.find on seriesName. -/
def findEpisodes (st : Store) (n : String) : List Episode :=
  st.episodes.filter (fun e => e.seriesName == n)

/-- DELETE /api/series/:seriesName — `Series.findOneAndDelete({ name })`;
on miss respond 404 (second component false) touching nothing; on hit delete
every Season and Episode whose seriesName matches (`deleteMany`). -/
def deleteSeriesHandler (st : Store) (n : String) : Store × Bool :=
  match extractFirst (fun s => s.name == n) st.series with
  | none => (st, false)
  | some (_, rest) =>
      ({ series := rest,
         seasons := st.seasons.filter (fun s => !(s.seriesName == n)),
         episodes := st.episodes.filter (fun e => !(e.seriesName == n)) }, true)

/-- Mongoose findOneAndUpdate with a plain update object performs `$set` of
exactly the paths present in the object: present paths are overwritten, paths
absent from the body are left as stored (schema defaults are not re-applied). -/
def applySeriesUpdate (doc : Series) (p : SeriesPayload) : Series :=
  { name := p.name.getD doc.name,
    thumbnail := p.thumbnail.getD doc.thumbnail,
    description := p.description.getD doc.description,
    type := p.type.getD doc.type }

/-- Mongoose set-paths semantics of findOneAndUpdate on a Season document. -/
def applySeasonUpdate (doc : Season) (p : SeasonPayload) : Season :=
  { seriesName := p.seriesName.getD doc.seriesName,
    seasonNumber := p.seasonNumber.getD doc.seasonNumber,
    title := p.title.getD doc.title,
    description := p.description.getD doc.description,
    thumbnail := p.thumbnail.getD doc.thumbnail }

/-- Mongoose set-paths semantics of findOneAndUpdate on an Episode document. -/
def applyEpisodeUpdate (doc : Episode) (p : EpisodePayload) : Episode :=
  { seriesName := p.seriesName.getD doc.seriesName,
    seasonNumber := p.seasonNumber.getD doc.seasonNumber,
    episodeNumber := p.episodeNumber.getD doc.episodeNumber,
    title := p.title.getD doc.title,
    description := p.description.getD doc.description,
    streamingUrl := p.streamingUrl.getD doc.streamingUrl,
    thumbnail := p.thumbnail.getD doc.thumbnail,
    duration := p.duration.getD doc.duration,
    airDate :=
      match p.airDate with
      | some v => v
      | none => doc.airDate }

/-- PUT /api/series/:seriesName — `Series.findOneAndUpdate({ name }, body,
{ new: true })`; 404 (none) on miss. -/
def updateSeriesHandler (st : Store) (n : String) (p : SeriesPayload) :
    Store × Option Series :=
  match updateFirst (fun s => s.name == n) (fun s => applySeriesUpdate s p) st.series with
  | none => (st, none)
  | some (u, newList) => ({ st with series := newList }, some u)

/-- PUT /api/series/:seriesName/seasons/:seasonNumber. -/
def updateSeasonHandler (st : Store) (n : String) (k : Int) (p : SeasonPayload) :
    Store × Option Season :=
  match updateFirst (fun s => s.seriesName == n && s.seasonNumber == k)
      (fun s => applySeasonUpdate s p) st.seasons with
  | none => (st, none)
  | some (u, newList) => ({ st with seasons := newList }, some u)

/-- PUT .../episodes/:episodeNumber. -/
def updateEpisodeHandler (st : Store) (n : String) (k en : Int) (p : EpisodePayload) :
    Store × Option Episode :=
  match updateFirst
      (fun e => e.seriesName == n && e.seasonNumber == k && e.episodeNumber == en)
      (fun e => applyEpisodeUpdate e p) st.episodes with
  | none => (st, none)
  | some (u, newList) => ({ st with episodes := newList }, some u)

/-- Following the wording of the spec, for comparison: a full-document replacement
update replaces the stored document by the payload document, with omitted
optional fields reset to their schema defaults (exactly `new Series(body)`). -/
def replaceSeriesSpec (p : SeriesPayload) : Option Series := mkSeries p

/-- Fixture: an update body carrying name and thumbnail but omitting the
optional description and type fields. -/
def replacePayload : SeriesPayload :=
  { name := some "A", thumbnail := some "t2", description := none, type := none }

/-- Fixture: the series named "A" used by concrete instantiations. -/
def seriesA : Series :=
  { name := "A", thumbnail := "t", description := "old", type := "series" }

/-- Fixture: season 1 of series "A". -/
def seasonA1 : Season :=
  { seriesName := "A", seasonNumber := 1, title := "Season 1",
    description := "", thumbnail := "" }

/-- Fixture: episode 1 of season 1 of series "A". -/
def episodeA11 : Episode :=
  { seriesName := "A", seasonNumber := 1, episodeNumber := 1, title := "E1",
    description := "", streamingUrl := "u", thumbnail := "", duration := "",
    airDate := none }

/-- Fixture store holding series "A" with one season and one episode. -/
def storeA : Store :=
  { series := [seriesA], seasons := [seasonA1], episodes := [episodeA11] }

/-- POST /api/series/:seriesName/seasons — the body is spread and seriesName
is then overwritten with the URL parameter, then `new Season(...).save()`.
No check that a Series with that name exists is performed. -/
def createSeasonHandler (st : Store) (n : String) (p : SeasonPayload) :
    Store × Option Season :=
  match mkSeason { p with seriesName := some n } with
  | none => (st, none)
  | some s => ({ st with seasons := st.seasons ++ [s] }, some s)

/-- POST .../seasons/:seasonNumber/episodes — the body is spread and
seriesName / seasonNumber are overwritten with the URL parameters, then
`new Episode(...).save()`.  No parent-existence check is performed. -/
def createEpisodeHandler (st : Store) (n : String) (k : Int) (p : EpisodePayload) :
    Store × Option Episode :=
  match mkEpisode { p with seriesName := some n, seasonNumber := some k } with
  | none => (st, none)
  | some e => ({ st with episodes := st.episodes ++ [e] }, some e)

/-- Mongoose `Episode.insertMany`: every document is validated before any is
inserted; the first validation failure rejects the whole batch. -/
def validateEpisodes : List EpisodePayload → Option (List Episode)
  | [] => some []
  | p :: rest =>
    match mkEpisode p, validateEpisodes rest with
    | some e, some es => some (e :: es)
    | _, _ => none

/-- POST .../episodes/bulk — each entry of body.episodes is spread and
overwritten with the URL seriesName/seasonNumber, then `insertMany`. -/
def bulkEpisodesHandler (st : Store) (n : String) (k : Int)
    (ps : List EpisodePayload) : Store × Option (List Episode) :=
  match validateEpisodes
      (ps.map fun p => { p with seriesName := some n, seasonNumber := some k }) with
  | none => (st, none)
  | some es => ({ st with episodes := st.episodes ++ es }, some es)

/-- Fixture: a season body whose seriesName conflicts with the URL. -/
def payloadSeasonConflict : SeasonPayload :=
  { seriesName := some "A", seasonNumber := some 2, title := some "S2",
    description := none, thumbnail := none }

/-- Fixture: the season stored for payloadSeasonConflict under URL series "B". -/
def createdSeasonB : Season :=
  { seriesName := "B", seasonNumber := 2, title := "S2",
    description := "", thumbnail := "" }

/-- Fixture: a well-formed episode body whose seriesName and seasonNumber
conflict with the URL. -/
def epPayloadOk : EpisodePayload :=
  { seriesName := some "A", seasonNumber := some 9, episodeNumber := some 1,
    title := some "E1", description := none, streamingUrl := some "u",
    thumbnail := none, duration := none, airDate := none }

/-- Fixture: the episode stored for epPayloadOk under URL series "B",
season 2. -/
def createdEpisodeB : Episode :=
  { seriesName := "B", seasonNumber := 2, episodeNumber := 1, title := "E1",
    description := "", streamingUrl := "u", thumbnail := "", duration := "",
    airDate := none }

/-- Fixture: an episode body missing the required streamingUrl. -/
def epPayloadNoUrl : EpisodePayload :=
  { seriesName := none, seasonNumber := none, episodeNumber := some 2,
    title := some "E2", description := none, streamingUrl := none,
    thumbnail := none, duration := none, airDate := none }

/-- Fixture: an episode body missing the required title. -/
def epPayloadNoTitle : EpisodePayload :=
  { seriesName := none, seasonNumber := none, episodeNumber := some 3,
    title := none, description := none, streamingUrl := some "u",
    thumbnail := none, duration := none, airDate := none }

/-- Season ordering used by `.sort({ seasonNumber: 1 })`. -/
def seasonNumberLe (a b : Season) : Prop := a.seasonNumber ≤ b.seasonNumber

instance : DecidableRel seasonNumberLe :=
  fun a b => inferInstanceAs (Decidable (a.seasonNumber ≤ b.seasonNumber))

instance : IsTotal Season seasonNumberLe :=
  ⟨fun a b => Int.le_total a.seasonNumber b.seasonNumber⟩

instance : IsTrans Season seasonNumberLe :=
  ⟨fun _ _ _ h1 h2 => le_trans h1 h2⟩

/-- Episode ordering used by `.sort({ seasonNumber: 1, episodeNumber: 1 })`. -/
def epKeyLe (a b : Episode) : Prop :=
  a.seasonNumber < b.seasonNumber ∨
    (a.seasonNumber = b.seasonNumber ∧ a.episodeNumber ≤ b.episodeNumber)

instance : DecidableRel epKeyLe := fun a b =>
  inferInstanceAs (Decidable (a.seasonNumber < b.seasonNumber ∨
    (a.seasonNumber = b.seasonNumber ∧ a.episodeNumber ≤ b.episodeNumber)))

instance : IsTotal Episode epKeyLe :=
  ⟨fun a b => by unfold epKeyLe; omega⟩

instance : IsTrans Episode epKeyLe :=
  ⟨fun a b c h1 h2 => by unfold epKeyLe at h1 h2 ⊢; omega⟩

/-- Ascending episodeNumber order inside one season group. -/
def epNumLe (a b : Episode) : Prop := a.episodeNumber ≤ b.episodeNumber

/-- One season of the composed complete view, episodes nested. -/
structure SeasonWithEpisodes where
  season : Season
  episodes : List Episode
deriving Repr, DecidableEq

/-- The composed complete-series view. -/
structure CompleteSeries where
  series : Series
  seasons : List SeasonWithEpisodes
deriving Repr, DecidableEq

/-- GET /api/series/:seriesName/complete — 404 (none) when the Series is
absent; otherwise fetch the seasons sorted by seasonNumber, the episodes
sorted by (seasonNumber, episodeNumber), and nest under each season the
episodes whose seasonNumber equals the one of that season. -/
def completeSeriesHandler (st : Store) (n : String) : Option CompleteSeries :=
  match findFirst (fun s => s.name == n) st.series with
  | none => none
  | some s =>
    some { series := s,
           seasons := (List.insertionSort seasonNumberLe (findSeasons st n)).map fun se =>
             { season := se,
               episodes := (List.insertionSort epKeyLe (findEpisodes st n)).filter
                 (fun e => e.seasonNumber == se.seasonNumber) } }

/-- One entry of the stats episodesPerSeason array. -/
structure SeasonCount where
  season : Int
  episodes : Nat
deriving Repr, DecidableEq

/-- The GET /api/series/:seriesName/stats response body. -/
structure SeriesStats where
  seriesName : String
  totalSeasons : Nat
  totalEpisodes : Nat
  episodesPerSeason : List SeasonCount
deriving Repr, DecidableEq

/-- The distinct seasonNumber group keys of the stats aggregate
($match seriesName, $group by seasonNumber, $sort by _id ascending). -/
def statKeys (st : Store) (n : String) : List Int :=
  List.insertionSort (fun a b => a ≤ b)
    ((st.episodes.filter (fun e => e.seriesName == n)).map (fun e => e.seasonNumber)).dedup

/-- GET /api/series/:seriesName/stats — countDocuments on Season and
Episode filtered by seriesName, plus per-season group sizes keyed and
ordered by seasonNumber. -/
def seriesStatsHandler (st : Store) (n : String) : SeriesStats :=
  { seriesName := n,
    totalSeasons := (st.seasons.filter (fun s => s.seriesName == n)).length,
    totalEpisodes := (st.episodes.filter (fun e => e.seriesName == n)).length,
    episodesPerSeason := (statKeys st n).map fun k =>
      { season := k,
        episodes := ((st.episodes.filter (fun e => e.seriesName == n)).filter
          (fun e => e.seasonNumber == k)).length } }

/-- Modelled from the spec: the Movie entity (name, thumbnail, streamingUrl
required; addedBy optional; addedAt set at creation).  No Movie collection
appears in src/backend/server.js. -/
structure Movie where
  name : String
  thumbnail : String
  streamingUrl : String
  addedBy : Option Int
  addedAt : Int
deriving Repr, DecidableEq

/-- Modelled from the spec: the Series summary entering the combined media
view carries an addedAt creation timestamp (the Series schema in
src/backend/server.js has no such field, but the media view is specified
over it). -/
structure CatalogSeries where
  name : String
  thumbnail : String
  description : String
  addedAt : Int
deriving Repr, DecidableEq

/-- Modelled from the spec: one entry of the flat, type-tagged combined
media list. -/
structure MediaItem where
  name : String
  thumbnail : String
  type : String
  addedAt : Int
deriving Repr, DecidableEq

/-- A Movie tagged type="movie" for the combined view. -/
def movieItem (m : Movie) : MediaItem :=
  { name := m.name, thumbnail := m.thumbnail, type := "movie", addedAt := m.addedAt }

/-- A Series tagged type="series" for the combined view. -/
def seriesItem (s : CatalogSeries) : MediaItem :=
  { name := s.name, thumbnail := s.thumbnail, type := "series", addedAt := s.addedAt }

/-- Does the character list start with the given needle? -/
def startsWithChars : List Char → List Char → Bool
  | _, [] => true
  | [], _ :: _ => false
  | c :: cs, d :: ds => c == d && startsWithChars cs ds

/-- Does the character list contain the needle as a contiguous run? -/
def hasSubChars (needle : List Char) : List Char → Bool
  | [] => startsWithChars [] needle
  | c :: rest => startsWithChars (c :: rest) needle || hasSubChars needle rest

/-- The case-insensitive substring search filter (a RegExp with the i flag
over a name field, with the search text taken literally). -/
def matchesSearch (q : Option String) (nm : String) : Bool :=
  match q with
  | none => true
  | some s => hasSubChars s.toLower.toList nm.toLower.toList

/-- Most-recent-first order on addedAt for the combined media view. -/
def newerFirst (a b : MediaItem) : Prop := b.addedAt ≤ a.addedAt

instance : DecidableRel newerFirst :=
  fun a b => inferInstanceAs (Decidable (b.addedAt ≤ a.addedAt))

instance : IsTotal MediaItem newerFirst :=
  ⟨fun a b => Int.le_total b.addedAt a.addedAt⟩

instance : IsTrans MediaItem newerFirst :=
  ⟨fun _ _ _ h1 h2 => le_trans h2 h1⟩

/-- Modelled from the spec: GET /api/media does not appear in
src/backend/server.js (the cited lines hold only the static catch-all);
following the spec, the view fetches the Movies and the Series matching the
optional search filter, tags each with its type, and concatenates. -/
def taggedMedia (movies : List Movie) (sl : List CatalogSeries)
    (q : Option String) : List MediaItem :=
  (movies.filter (fun m => matchesSearch q m.name)).map movieItem ++
    (sl.filter (fun s => matchesSearch q s.name)).map seriesItem

/-- Modelled from the spec: the combined media view sorts the tagged
concatenation descending by addedAt with a stable sort (ties keep
store-returned order). -/
def combinedMediaView (movies : List Movie) (sl : List CatalogSeries)
    (q : Option String) : List MediaItem :=
  List.insertionSort newerFirst (taggedMedia movies sl q)

/-- Fixture: series "X" of the grouping and stats examples. -/
def seriesX : Series :=
  { name := "X", thumbnail := "t", description := "", type := "series" }

/-- Fixture: season 1 of series "X". -/
def seasonX1 : Season :=
  { seriesName := "X", seasonNumber := 1, title := "S1",
    description := "", thumbnail := "" }

/-- Fixture: season 2 of series "X". -/
def seasonX2 : Season :=
  { seriesName := "X", seasonNumber := 2, title := "S2",
    description := "", thumbnail := "" }

/-- Fixture: episode en of season k of series "X". -/
def epX (k en : Int) : Episode :=
  { seriesName := "X", seasonNumber := k, episodeNumber := en, title := "E",
    description := "", streamingUrl := "u", thumbnail := "", duration := "",
    airDate := none }

/-- Fixture store: series "X" with two seasons, three episodes in season 1
and two in season 2, stored out of order. -/
def storeX : Store :=
  { series := [seriesX],
    seasons := [seasonX2, seasonX1],
    episodes := [epX 2 2, epX 1 3, epX 1 1, epX 2 1, epX 1 2] }

/-- Fixture: the complete view composed for storeX. -/
def completeX : CompleteSeries :=
  { series := seriesX,
    seasons := [
      { season := seasonX1, episodes := [epX 1 1, epX 1 2, epX 1 3] },
      { season := seasonX2, episodes := [epX 2 1, epX 2 2] } ] }

/-- Fixture: a movie added at time 1. -/
def movieM1 : Movie :=
  { name := "M", thumbnail := "t", streamingUrl := "u", addedBy := none,
    addedAt := 1 }

/-- Fixture: a catalog series added at time 2. -/
def catalogS2 : CatalogSeries :=
  { name := "S", thumbnail := "t", description := "", addedAt := 2 }

end ContentServer

namespace ContentServer

theorem filter_not_filter {α : Type} (f : α → Bool) (l : List α) :
    (l.filter (fun x => !(f x))).filter f = [] := by
  induction l with
  | nil => rfl
  | cons x xs ih =>
    by_cases h : f x <;> simp [List.filter_cons, h, ih]

theorem extractFirst_eq_none {α : Type} (p : α → Bool) (l : List α)
    (h : ∀ x ∈ l, p x = false) : extractFirst p l = none := by
  induction l with
  | nil => rfl
  | cons x xs ih =>
    have hx : p x = false := h x (List.mem_cons_self x xs)
    simp only [extractFirst, hx]
    rw [ih fun y hy => h y (List.mem_cons_of_mem x hy)]
    simp

/-- C1: if DELETE /api/series/:seriesName finds and deletes a Series named n,
then afterwards no Season and no Episode with seriesName = n remains. -/
theorem deleteSeries_cascades (st : Store) (n : String)
    (h : (deleteSeriesHandler st n).2 = true) :
    findSeasons (deleteSeriesHandler st n).1 n = [] ∧
    findEpisodes (deleteSeriesHandler st n).1 n = [] := by
  unfold deleteSeriesHandler at h ⊢
  cases hE : extractFirst (fun s => s.name == n) st.series with
  | none => rw [hE] at h; exact absurd h (by simp)
  | some pr =>
    obtain ⟨d, rest⟩ := pr
    constructor
    · exact filter_not_filter (fun s => s.seriesName == n) st.seasons
    · exact filter_not_filter (fun e => e.seriesName == n) st.episodes

/-- C1 witness: deleting series "A" from the fixture store removes its
season and episode. -/
theorem deleteSeries_cascades_witness :
    findSeasons (deleteSeriesHandler storeA "A").1 "A" = [] ∧
    findEpisodes (deleteSeriesHandler storeA "A").1 "A" = [] :=
  deleteSeries_cascades storeA "A" (by decide)

/-- C5: deleting a series name that matches no stored Series is a 404 and
leaves the store completely unchanged. -/
theorem deleteSeries_notFound (st : Store) (n : String)
    (h : ∀ s ∈ st.series, s.name ≠ n) :
    deleteSeriesHandler st n = (st, false) := by
  unfold deleteSeriesHandler
  rw [extractFirst_eq_none _ _ (fun s hs => by
    have := h s hs; simp [this])]

/-- C5 witness: deleting the absent series "Z" from the fixture store is a
404 that changes nothing. -/
theorem deleteSeries_notFound_witness :
    deleteSeriesHandler storeA "Z" = (storeA, false) :=
  deleteSeries_notFound storeA "Z" (by decide)

theorem updateFirst_of_findFirst {α : Type} (p : α → Bool) (f : α → α) :
    ∀ (l : List α) (d : α), findFirst p l = some d →
      ∃ rest, updateFirst p f l = some (f d, rest) := by
  intro l
  induction l with
  | nil => intro d h; exact absurd h (by simp [findFirst])
  | cons x xs ih =>
    intro d h
    by_cases hx : p x
    · simp [findFirst, hx] at h
      subst h
      exact ⟨f x :: xs, by simp [updateFirst, hx]⟩
    · simp only [findFirst, hx, if_neg] at h
      simp only [Bool.not_eq_true] at hx
      obtain ⟨rest, hrest⟩ := ih d (by simpa [hx] using h)
      exact ⟨x :: rest, by simp [updateFirst, hx, hrest]⟩

theorem updateFirst_mem_of_no_match {α : Type} (p : α → Bool) (f : α → α) :
    ∀ (l : List α) (u : α) (rest : List α), updateFirst p f l = some (u, rest) →
      ∀ x ∈ l, p x = false → x ∈ rest := by
  intro l
  induction l with
  | nil => intro u rest h; exact absurd h (by simp [updateFirst])
  | cons y ys ih =>
    intro u rest h x hx hpx
    by_cases hy : p y
    · simp only [updateFirst, hy, if_pos] at h
      obtain ⟨rfl, rfl⟩ : f y = u ∧ f y :: ys = rest := by simpa using h
      rcases List.mem_cons.1 hx with rfl | hmem
      · rw [hpx] at hy; exact absurd hy (by simp)
      · exact List.mem_cons_of_mem _ hmem
    · simp only [updateFirst, hy, if_neg] at h
      cases hU : updateFirst p f ys with
      | none => rw [hU] at h; exact absurd h (by simp)
      | some pr =>
        obtain ⟨u0, rest0⟩ := pr
        rw [hU] at h
        obtain ⟨rfl, rfl⟩ : u0 = u ∧ y :: rest0 = rest := by simpa using h
        rcases List.mem_cons.1 hx with rfl | hmem
        · exact List.mem_cons_self _ _
        · exact List.mem_cons_of_mem _ (ih _ _ hU x hmem hpx)

/-- C2 counterexample: updating series "A" with a body that omits the
optional description does NOT reset the description to its schema default
(the spec-words full replacement would): the stored value "old" is kept, so
the update is not a full-document replacement. -/
theorem update_not_replacement :
    replacePayload.description = none ∧
    (updateSeriesHandler storeA "A" replacePayload).2 =
      some { name := "A", thumbnail := "t2", description := "old", type := "series" } ∧
    replaceSeriesSpec replacePayload =
      some { name := "A", thumbnail := "t2", description := "", type := "series" } ∧
    (updateSeriesHandler storeA "A" replacePayload).2 ≠ replaceSeriesSpec replacePayload := by
  refine ⟨rfl, rfl, rfl, by decide⟩

/-- C2 amended: PUT updates on series, seasons and episodes have Mongoose
`$set` (partial-patch) semantics: when the keyed document is found, the
handler stores the matched document rewritten field-by-field, and every field
absent from the payload is retained from the previously stored document, not
reset to its schema default. -/
theorem updates_are_partial_patches :
    (∀ (st : Store) (n : String) (p : SeriesPayload) (d : Series),
        findFirst (fun s => s.name == n) st.series = some d →
        (updateSeriesHandler st n p).2 = some (applySeriesUpdate d p) ∧
        (p.name = none → (applySeriesUpdate d p).name = d.name) ∧
        (p.thumbnail = none → (applySeriesUpdate d p).thumbnail = d.thumbnail) ∧
        (p.description = none → (applySeriesUpdate d p).description = d.description) ∧
        (p.type = none → (applySeriesUpdate d p).type = d.type)) ∧
    (∀ (st : Store) (n : String) (k : Int) (p : SeasonPayload) (d : Season),
        findFirst (fun s => s.seriesName == n && s.seasonNumber == k) st.seasons = some d →
        (updateSeasonHandler st n k p).2 = some (applySeasonUpdate d p) ∧
        (p.description = none → (applySeasonUpdate d p).description = d.description) ∧
        (p.thumbnail = none → (applySeasonUpdate d p).thumbnail = d.thumbnail)) ∧
    (∀ (st : Store) (n : String) (k en : Int) (p : EpisodePayload) (d : Episode),
        findFirst (fun e => e.seriesName == n && e.seasonNumber == k &&
          e.episodeNumber == en) st.episodes = some d →
        (updateEpisodeHandler st n k en p).2 = some (applyEpisodeUpdate d p) ∧
        (p.description = none → (applyEpisodeUpdate d p).description = d.description) ∧
        (p.duration = none → (applyEpisodeUpdate d p).duration = d.duration) ∧
        (p.airDate = none → (applyEpisodeUpdate d p).airDate = d.airDate)) := by
  refine ⟨?_, ?_, ?_⟩
  · intro st n p d hfind
    obtain ⟨rest, hrest⟩ :=
      updateFirst_of_findFirst (fun s => s.name == n) (fun s => applySeriesUpdate s p)
        st.series d hfind
    refine ⟨?_, ?_, ?_, ?_, ?_⟩
    · unfold updateSeriesHandler; rw [hrest]
    all_goals intro h; simp [applySeriesUpdate, h]
  · intro st n k p d hfind
    obtain ⟨rest, hrest⟩ :=
      updateFirst_of_findFirst _ (fun s => applySeasonUpdate s p) st.seasons d hfind
    refine ⟨?_, ?_, ?_⟩
    · unfold updateSeasonHandler; rw [hrest]
    all_goals intro h; simp [applySeasonUpdate, h]
  · intro st n k en p d hfind
    obtain ⟨rest, hrest⟩ :=
      updateFirst_of_findFirst _ (fun e => applyEpisodeUpdate e p) st.episodes d hfind
    refine ⟨?_, ?_, ?_, ?_⟩
    · unfold updateEpisodeHandler; rw [hrest]
    all_goals intro h; simp [applyEpisodeUpdate, h]

/-- C2 amended witness: updating series "A" with a body omitting description
keeps the stored description "old". -/
theorem updates_are_partial_patches_witness :
    (updateSeriesHandler storeA "A" replacePayload).2 =
      some (applySeriesUpdate seriesA replacePayload) ∧
    (replacePayload.name = none →
      (applySeriesUpdate seriesA replacePayload).name = seriesA.name) ∧
    (replacePayload.thumbnail = none →
      (applySeriesUpdate seriesA replacePayload).thumbnail = seriesA.thumbnail) ∧
    (replacePayload.description = none →
      (applySeriesUpdate seriesA replacePayload).description = seriesA.description) ∧
    (replacePayload.type = none →
      (applySeriesUpdate seriesA replacePayload).type = seriesA.type) :=
  updates_are_partial_patches.1 storeA "A" replacePayload seriesA (by decide)

/-- C10: PUT /api/series/:seriesName touches only the matched Series
document: the Season and Episode collections are unchanged (so after a
rename the children keep the old seriesName and become orphaned), and every
Series document whose name does not match is still stored. -/
theorem updateSeries_frame (st : Store) (n : String) (p : SeriesPayload) :
    (updateSeriesHandler st n p).1.seasons = st.seasons ∧
    (updateSeriesHandler st n p).1.episodes = st.episodes ∧
    ∀ s ∈ st.series, s.name ≠ n → s ∈ (updateSeriesHandler st n p).1.series := by
  unfold updateSeriesHandler
  cases hU : updateFirst (fun s => s.name == n) (fun s => applySeriesUpdate s p) st.series with
  | none => exact ⟨rfl, rfl, fun s hs _ => hs⟩
  | some pr =>
    obtain ⟨u, rest⟩ := pr
    refine ⟨rfl, rfl, fun s hs hne => ?_⟩
    exact updateFirst_mem_of_no_match _ _ st.series u rest hU s hs (by simp [hne])

theorem mkSeason_fields (p : SeasonPayload) (s : Season) (h : mkSeason p = some s) :
    p.seriesName = some s.seriesName := by
  rcases h1 : p.seriesName with _ | sn <;>
    rcases h2 : p.seasonNumber with _ | k <;>
      rcases h3 : p.title with _ | t <;>
        simp only [mkSeason, h1, h2, h3] at h <;>
          first
          | exact Option.noConfusion h
          | (have hrec := Option.some.inj h; subst hrec; simp_all)

theorem mkEpisode_fields (p : EpisodePayload) (e : Episode) (h : mkEpisode p = some e) :
    p.seriesName = some e.seriesName ∧ p.seasonNumber = some e.seasonNumber := by
  rcases h1 : p.seriesName with _ | sn <;>
    rcases h2 : p.seasonNumber with _ | k <;>
      rcases h3 : p.episodeNumber with _ | en <;>
        rcases h4 : p.title with _ | t <;>
          rcases h5 : p.streamingUrl with _ | u <;>
            simp only [mkEpisode, h1, h2, h3, h4, h5] at h <;>
              first
              | exact Option.noConfusion h
              | (have hrec := Option.some.inj h; subst hrec; simp_all)

theorem mkEpisode_override_isSome (p : EpisodePayload) (n : String) (k : Int)
    (h3 : p.episodeNumber.isSome = true) (h4 : p.title.isSome = true)
    (h5 : p.streamingUrl.isSome = true) :
    (mkEpisode { p with seriesName := some n, seasonNumber := some k }).isSome = true := by
  obtain ⟨en, hen⟩ := Option.isSome_iff_exists.1 h3
  obtain ⟨t, ht⟩ := Option.isSome_iff_exists.1 h4
  obtain ⟨u, hu⟩ := Option.isSome_iff_exists.1 h5
  simp [mkEpisode, hen, ht, hu]

theorem mkEpisode_override_none (p : EpisodePayload) (n : String) (k : Int)
    (h : p.episodeNumber = none ∨ p.title = none ∨ p.streamingUrl = none) :
    mkEpisode { p with seriesName := some n, seasonNumber := some k } = none := by
  rcases h3 : p.episodeNumber with _ | en <;>
    rcases h4 : p.title with _ | t <;>
      rcases h5 : p.streamingUrl with _ | u <;>
        simp_all [mkEpisode]

theorem validateEpisodes_mem :
    ∀ (ps : List EpisodePayload) (es : List Episode), validateEpisodes ps = some es →
      ∀ e ∈ es, ∃ p ∈ ps, mkEpisode p = some e := by
  intro ps
  induction ps with
  | nil =>
    intro es h e he
    simp only [validateEpisodes, Option.some.injEq] at h
    subst h; exact absurd he (by simp)
  | cons p rest ih =>
    intro es h e he
    cases hp : mkEpisode p with
    | none => simp [validateEpisodes, hp] at h
    | some e0 =>
      cases hr : validateEpisodes rest with
      | none => simp [validateEpisodes, hp, hr] at h
      | some es0 =>
        simp only [validateEpisodes, hp, hr, Option.some.injEq] at h
        subst h
        rcases List.mem_cons.1 he with rfl | hm
        · exact ⟨p, List.mem_cons_self _ _, hp⟩
        · obtain ⟨q, hq, hqe⟩ := ih es0 hr e hm
          exact ⟨q, List.mem_cons_of_mem _ hq, hqe⟩

theorem validateEpisodes_none_of_mem :
    ∀ (ps : List EpisodePayload) (p : EpisodePayload), p ∈ ps → mkEpisode p = none →
      validateEpisodes ps = none := by
  intro ps
  induction ps with
  | nil => intro p hp; exact absurd hp (by simp)
  | cons q rest ih =>
    intro p hp hnone
    rcases List.mem_cons.1 hp with rfl | hm
    · simp [validateEpisodes, hnone]
    · cases hq : mkEpisode q <;> simp [validateEpisodes, hq, ih p hm hnone]

theorem validateEpisodes_isSome :
    ∀ ps : List EpisodePayload, (∀ p ∈ ps, (mkEpisode p).isSome = true) →
      ∃ es, validateEpisodes ps = some es ∧ es.length = ps.length := by
  intro ps
  induction ps with
  | nil => intro _; exact ⟨[], rfl, rfl⟩
  | cons p rest ih =>
    intro h
    obtain ⟨e, he⟩ :=
      Option.isSome_iff_exists.1 (h p (List.mem_cons_self _ _))
    obtain ⟨es, hes, hlen⟩ := ih (fun q hq => h q (List.mem_cons_of_mem _ hq))
    exact ⟨e :: es, by simp [validateEpisodes, he, hes], by simp [hlen]⟩

/-- C4: a bulk episode insert whose batch contains an entry missing any
required field — episodeNumber, title or streamingUrl (seriesName and
seasonNumber are always supplied by the URL override) — is rejected whole
with nothing persisted; a batch whose entries are all well-formed is
inserted in full. -/
theorem bulk_insert_atomic (st : Store) (n : String) (k : Int)
    (ps : List EpisodePayload) :
    ((∃ p ∈ ps, p.episodeNumber = none ∨ p.title = none ∨ p.streamingUrl = none) →
      bulkEpisodesHandler st n k ps = (st, none)) ∧
    ((∀ p ∈ ps, p.episodeNumber.isSome = true ∧ p.title.isSome = true ∧
        p.streamingUrl.isSome = true) →
      ∃ es, validateEpisodes (ps.map fun p =>
          { p with seriesName := some n, seasonNumber := some k }) = some es ∧
        bulkEpisodesHandler st n k ps =
          ({ st with episodes := st.episodes ++ es }, some es) ∧
        es.length = ps.length) := by
  constructor
  · rintro ⟨p, hp, hnone⟩
    have hmap : ({ p with seriesName := some n, seasonNumber := some k }
        : EpisodePayload) ∈
        ps.map fun q => { q with seriesName := some n, seasonNumber := some k } :=
      List.mem_map_of_mem _ hp
    have hvnone := validateEpisodes_none_of_mem _ _ hmap
      (mkEpisode_override_none p n k hnone)
    unfold bulkEpisodesHandler
    rw [hvnone]
  · intro h
    obtain ⟨es, hes, hlen⟩ := validateEpisodes_isSome
      (ps.map fun q => { q with seriesName := some n, seasonNumber := some k })
      (by
        intro q hq
        obtain ⟨p, hp, rfl⟩ := List.mem_map.1 hq
        obtain ⟨h3, h4, h5⟩ := h p hp
        exact mkEpisode_override_isSome p n k h3 h4 h5)
    refine ⟨es, hes, ?_, by simpa using hlen⟩
    unfold bulkEpisodesHandler
    rw [hes]

/-- C4 witness: one-entry batches missing streamingUrl or missing title are
each rejected changing nothing, while a well-formed one-entry batch is
inserted in full. -/
theorem bulk_insert_atomic_witness :
    bulkEpisodesHandler storeA "A" 1 [epPayloadNoUrl] = (storeA, none) ∧
    bulkEpisodesHandler storeA "A" 1 [epPayloadNoTitle] = (storeA, none) ∧
    ∃ es, validateEpisodes ([epPayloadOk].map fun p =>
        { p with seriesName := some "A", seasonNumber := some (1 : Int) }) = some es ∧
      bulkEpisodesHandler storeA "A" 1 [epPayloadOk] =
        ({ storeA with episodes := storeA.episodes ++ es }, some es) ∧
      es.length = [epPayloadOk].length :=
  ⟨(bulk_insert_atomic storeA "A" 1 [epPayloadNoUrl]).1
      ⟨epPayloadNoUrl, by decide, Or.inr (Or.inr rfl)⟩,
   (bulk_insert_atomic storeA "A" 1 [epPayloadNoTitle]).1
      ⟨epPayloadNoTitle, by decide, Or.inr (Or.inl rfl)⟩,
   (bulk_insert_atomic storeA "A" 1 [epPayloadOk]).2 (by decide)⟩

/-- C9: a Season or Episode created through the season, episode or bulk
endpoints is stored with seriesName (and seasonNumber for episodes) taken
from the URL path, overriding any conflicting value in the request body. -/
theorem create_uses_url_keys (st : Store) (n : String) (k : Int) :
    (∀ (p : SeasonPayload) (s : Season),
        (createSeasonHandler st n p).2 = some s → s.seriesName = n) ∧
    (∀ (p : EpisodePayload) (e : Episode),
        (createEpisodeHandler st n k p).2 = some e →
          e.seriesName = n ∧ e.seasonNumber = k) ∧
    (∀ (ps : List EpisodePayload) (es : List Episode),
        (bulkEpisodesHandler st n k ps).2 = some es →
          ∀ e ∈ es, e.seriesName = n ∧ e.seasonNumber = k) := by
  refine ⟨?_, ?_, ?_⟩
  · intro p s h
    unfold createSeasonHandler at h
    cases hM : mkSeason { p with seriesName := some n } with
    | none => rw [hM] at h; exact absurd h (by simp)
    | some s0 =>
      rw [hM] at h
      obtain rfl : s0 = s := by simpa using h
      have := mkSeason_fields _ _ hM
      exact (Option.some.inj (by simpa using this)).symm
  · intro p e h
    unfold createEpisodeHandler at h
    cases hM : mkEpisode { p with seriesName := some n, seasonNumber := some k } with
    | none => rw [hM] at h; exact absurd h (by simp)
    | some e0 =>
      rw [hM] at h
      obtain rfl : e0 = e := by simpa using h
      obtain ⟨hs, hk⟩ := mkEpisode_fields _ _ hM
      exact ⟨(Option.some.inj (by simpa using hs)).symm,
             (Option.some.inj (by simpa using hk)).symm⟩
  · intro ps es h e he
    unfold bulkEpisodesHandler at h
    cases hV : validateEpisodes
        (ps.map fun p => { p with seriesName := some n, seasonNumber := some k }) with
    | none => rw [hV] at h; exact absurd h (by simp)
    | some es0 =>
      rw [hV] at h
      obtain rfl : es0 = es := by simpa using h
      obtain ⟨q, hq, hqe⟩ := validateEpisodes_mem _ _ hV e he
      obtain ⟨p, hp, rfl⟩ := List.mem_map.1 hq
      obtain ⟨hs, hk⟩ := mkEpisode_fields _ _ hqe
      exact ⟨(Option.some.inj (by simpa using hs)).symm,
             (Option.some.inj (by simpa using hk)).symm⟩

/-- C9 witness: under URL series "B" season 2, bodies claiming series "A"
season 9 are stored as series "B" season 2. -/
theorem create_uses_url_keys_witness :
    createdSeasonB.seriesName = "B" ∧
    (createdEpisodeB.seriesName = "B" ∧ createdEpisodeB.seasonNumber = 2) ∧
    (∀ e ∈ [createdEpisodeB], e.seriesName = "B" ∧ e.seasonNumber = 2) :=
  ⟨(create_uses_url_keys storeA "B" 2).1 payloadSeasonConflict createdSeasonB (by decide),
   (create_uses_url_keys storeA "B" 2).2.1 epPayloadOk createdEpisodeB (by decide),
   (create_uses_url_keys storeA "B" 2).2.2 [epPayloadOk] [createdEpisodeB] (by decide)⟩

/-- C7: no parent-existence validation happens on child creation: even when
no Series named n is stored, a well-formed Season or Episode body is accepted
and created. -/
theorem create_without_parent (st : Store) (n : String) (k : Int)
    (hAbsent : findFirst (fun s => s.name == n) st.series = none) :
    (∀ p : SeasonPayload, p.seasonNumber.isSome = true → p.title.isSome = true →
        ((createSeasonHandler st n p).2).isSome = true) ∧
    (∀ p : EpisodePayload, p.episodeNumber.isSome = true → p.title.isSome = true →
        p.streamingUrl.isSome = true →
        ((createEpisodeHandler st n k p).2).isSome = true) := by
  constructor
  · intro p h2 h3
    obtain ⟨kv, hk⟩ := Option.isSome_iff_exists.1 h2
    obtain ⟨t, ht⟩ := Option.isSome_iff_exists.1 h3
    simp [createSeasonHandler, mkSeason, hk, ht]
  · intro p h3 h4 h5
    have hM := mkEpisode_override_isSome p n k h3 h4 h5
    obtain ⟨e, he⟩ := Option.isSome_iff_exists.1 hM
    simp [createEpisodeHandler, he]

/-- C7 witness: series "B" does not exist in the fixture store, yet creating
a season and an episode under it succeeds. -/
theorem create_without_parent_witness :
    ((createSeasonHandler storeA "B" payloadSeasonConflict).2).isSome = true ∧
    ((createEpisodeHandler storeA "B" 2 epPayloadOk).2).isSome = true :=
  ⟨(create_without_parent storeA "B" 2 (by decide)).1 payloadSeasonConflict
      (by decide) (by decide),
   (create_without_parent storeA "B" 2 (by decide)).2 epPayloadOk
      (by decide) (by decide) (by decide)⟩

/-- C10 witness: renaming series "A" leaves its season and episode stored
under the old name. -/
theorem updateSeries_frame_witness :
    (updateSeriesHandler storeA "A" replacePayload).1.seasons = storeA.seasons ∧
    (updateSeriesHandler storeA "A" replacePayload).1.episodes = storeA.episodes ∧
    ∀ s ∈ storeA.series, s.name ≠ "A" →
      s ∈ (updateSeriesHandler storeA "A" replacePayload).1.series :=
  updateSeries_frame storeA "A" replacePayload

/-- C6: when the Series exists, the complete view nests under each season
exactly the stored Episodes of that series whose seasonNumber equals that
season; the seasons ascend by seasonNumber and every nested episode list
ascends by episodeNumber. -/
theorem completeSeries_grouping (st : Store) (n : String) (c : CompleteSeries)
    (h : completeSeriesHandler st n = some c) :
    List.Pairwise seasonNumberLe (c.seasons.map SeasonWithEpisodes.season) ∧
    ∀ swe ∈ c.seasons,
      (∀ e, e ∈ swe.episodes ↔
        e ∈ st.episodes ∧ e.seriesName = n ∧
          e.seasonNumber = swe.season.seasonNumber) ∧
      List.Pairwise epNumLe swe.episodes := by
  unfold completeSeriesHandler at h
  cases hF : findFirst (fun s => s.name == n) st.series with
  | none => rw [hF] at h; exact Option.noConfusion h
  | some s =>
    rw [hF] at h
    have hrec := Option.some.inj h
    subst hrec
    constructor
    · have hs := List.sorted_insertionSort seasonNumberLe (findSeasons st n)
      have hcomp : (SeasonWithEpisodes.season ∘ fun se =>
          ({ season := se,
             episodes := (List.insertionSort epKeyLe (findEpisodes st n)).filter
               (fun e => e.seasonNumber == se.seasonNumber) } : SeasonWithEpisodes))
          = fun se => se := rfl
      rw [List.map_map, hcomp, show (fun se : Season => se) = id from rfl, List.map_id]
      exact hs
    · intro swe hswe
      obtain ⟨se, hse, rfl⟩ := List.mem_map.1 hswe
      refine ⟨?_, ?_⟩
      · intro e
        constructor
        · intro he
          have h1 := List.mem_filter.1 he
          have h2 : e ∈ findEpisodes st n := by
            have h3 := h1.1
            rwa [List.mem_insertionSort] at h3
          have h3 := List.mem_filter.1 h2
          exact ⟨h3.1, by simpa using h3.2, by simpa using h1.2⟩
        · rintro ⟨hmem, hname, hnum⟩
          refine List.mem_filter.2 ⟨?_, by simpa using hnum⟩
          rw [List.mem_insertionSort]
          exact List.mem_filter.2 ⟨hmem, by simpa using hname⟩
      · have hsorted := (List.sorted_insertionSort epKeyLe (findEpisodes st n)).filter
          (fun e => e.seasonNumber == se.seasonNumber)
        refine List.Pairwise.imp_of_mem ?_ hsorted
        intro a b ha hb hab
        have ha2 : a.seasonNumber = se.seasonNumber := by
          simpa using (List.mem_filter.1 ha).2
        have hb2 : b.seasonNumber = se.seasonNumber := by
          simpa using (List.mem_filter.1 hb).2
        unfold epKeyLe at hab
        unfold epNumLe
        omega

/-- C6 witness: composing series "X" from the scrambled fixture store yields
season 1 with episodes 1,2,3 and season 2 with episodes 1,2, in order. -/
theorem completeSeries_grouping_witness :
    List.Pairwise seasonNumberLe (completeX.seasons.map SeasonWithEpisodes.season) ∧
    ∀ swe ∈ completeX.seasons,
      (∀ e, e ∈ swe.episodes ↔
        e ∈ storeX.episodes ∧ e.seriesName = "X" ∧
          e.seasonNumber = swe.season.seasonNumber) ∧
      List.Pairwise epNumLe swe.episodes :=
  completeSeries_grouping storeX "X" completeX (by decide)

/-- C8: the stats endpoint reports the count of Seasons and the count of
Episodes matching the series name, and groups the matching Episodes by
seasonNumber — one entry per occurring seasonNumber, strictly ascending,
each carrying the size of its group. -/
theorem seriesStats_correct (st : Store) (n : String) :
    (seriesStatsHandler st n).totalSeasons
        = st.seasons.countP (fun s => s.seriesName == n) ∧
    (seriesStatsHandler st n).totalEpisodes
        = st.episodes.countP (fun e => e.seriesName == n) ∧
    List.Pairwise (fun a b => a.season < b.season)
        (seriesStatsHandler st n).episodesPerSeason ∧
    (∀ g ∈ (seriesStatsHandler st n).episodesPerSeason,
        g.episodes = st.episodes.countP
          (fun e => e.seriesName == n && e.seasonNumber == g.season)) ∧
    (∀ k : Int, (∃ g ∈ (seriesStatsHandler st n).episodesPerSeason, g.season = k) ↔
        ∃ e ∈ st.episodes, e.seriesName = n ∧ e.seasonNumber = k) := by
  refine ⟨?_, ?_, ?_, ?_, ?_⟩
  · simp [seriesStatsHandler, List.countP_eq_length_filter]
  · simp [seriesStatsHandler, List.countP_eq_length_filter]
  · have hsorted := List.sorted_insertionSort (fun a b : Int => a ≤ b)
      ((st.episodes.filter (fun e => e.seriesName == n)).map
        (fun e => e.seasonNumber)).dedup
    have hnodup : (statKeys st n).Nodup :=
      (List.perm_insertionSort _ _).nodup_iff.2 (List.nodup_dedup _)
    have hlt : List.Pairwise (fun a b : Int => a < b) (statKeys st n) :=
      (List.Pairwise.and hsorted hnodup).imp fun hab =>
        lt_of_le_of_ne hab.1 hab.2
    unfold seriesStatsHandler
    rw [List.pairwise_map]
    exact hlt
  · intro g hg
    unfold seriesStatsHandler at hg
    obtain ⟨k, hk, rfl⟩ := List.mem_map.1 hg
    have hand : (fun e : Episode => e.seriesName == n && e.seasonNumber == k)
        = (fun e : Episode => e.seasonNumber == k && e.seriesName == n) := by
      funext e; exact Bool.and_comm _ _
    simp [List.countP_eq_length_filter, List.filter_filter, hand]
  · intro k
    constructor
    · rintro ⟨g, hg, hk⟩
      unfold seriesStatsHandler at hg
      obtain ⟨k0, hk0, rfl⟩ := List.mem_map.1 hg
      have hk0mem : k0 ∈ ((st.episodes.filter
          (fun e => e.seriesName == n)).map (fun e => e.seasonNumber)).dedup := by
        have h1 : k0 ∈ statKeys st n := hk0
        unfold statKeys at h1
        rwa [List.mem_insertionSort] at h1
      rw [List.mem_dedup] at hk0mem
      obtain ⟨e, he, hek⟩ := List.mem_map.1 hk0mem
      have hef := List.mem_filter.1 he
      refine ⟨e, hef.1, by simpa using hef.2, ?_⟩
      rw [hek]
      exact hk
    · rintro ⟨e, he, hname, hnum⟩
      have hkmem : k ∈ statKeys st n := by
        unfold statKeys
        rw [List.mem_insertionSort, List.mem_dedup]
        exact List.mem_map.2 ⟨e, List.mem_filter.2 ⟨he, by simpa using hname⟩, hnum⟩
      refine ⟨{ season := k, episodes := ((st.episodes.filter
          (fun e => e.seriesName == n)).filter
            (fun e => e.seasonNumber == k)).length }, ?_, rfl⟩
      unfold seriesStatsHandler
      exact List.mem_map_of_mem _ hkmem

/-- C8 witness: for fixture series "X" (2 seasons; 3 and 2 episodes) the
stats counts and groups are as specified. -/
theorem seriesStats_correct_witness :
    (seriesStatsHandler storeX "X").totalSeasons
        = storeX.seasons.countP (fun s => s.seriesName == "X") ∧
    (seriesStatsHandler storeX "X").totalEpisodes
        = storeX.episodes.countP (fun e => e.seriesName == "X") ∧
    List.Pairwise (fun a b => a.season < b.season)
        (seriesStatsHandler storeX "X").episodesPerSeason ∧
    (∀ g ∈ (seriesStatsHandler storeX "X").episodesPerSeason,
        g.episodes = storeX.episodes.countP
          (fun e => e.seriesName == "X" && e.seasonNumber == g.season)) ∧
    (∀ k : Int, (∃ g ∈ (seriesStatsHandler storeX "X").episodesPerSeason,
        g.season = k) ↔
        ∃ e ∈ storeX.episodes, e.seriesName = "X" ∧ e.seasonNumber = k) :=
  seriesStats_correct storeX "X"

/-- C3 (modelled from the spec): the combined media view is exactly the
matching Movies tagged "movie" together with the matching Series tagged
"series" (a permutation of the tagged concatenation), sorted descending by
addedAt, so a Series added strictly later than a Movie appears strictly
before it. -/
theorem combinedMedia_ordering (movies : List Movie) (sl : List CatalogSeries)
    (q : Option String) :
    List.Perm (combinedMediaView movies sl q) (taggedMedia movies sl q) ∧
    (∀ m ∈ movies, matchesSearch q m.name = true →
        movieItem m ∈ combinedMediaView movies sl q) ∧
    (∀ s ∈ sl, matchesSearch q s.name = true →
        seriesItem s ∈ combinedMediaView movies sl q) ∧
    List.Sorted newerFirst (combinedMediaView movies sl q) ∧
    (∀ (i j : Fin (combinedMediaView movies sl q).length) (m : Movie)
        (s : CatalogSeries),
        (combinedMediaView movies sl q).get i = movieItem m →
        (combinedMediaView movies sl q).get j = seriesItem s →
        m.addedAt < s.addedAt → (j : Nat) < (i : Nat)) := by
  have hsorted : List.Sorted newerFirst (combinedMediaView movies sl q) :=
    List.sorted_insertionSort newerFirst (taggedMedia movies sl q)
  refine ⟨List.perm_insertionSort _ _, ?_, ?_, hsorted, ?_⟩
  · intro m hm hq
    unfold combinedMediaView
    rw [List.mem_insertionSort]
    exact List.mem_append_left _
      (List.mem_map_of_mem _ (List.mem_filter.2 ⟨hm, hq⟩))
  · intro s hs hq
    unfold combinedMediaView
    rw [List.mem_insertionSort]
    exact List.mem_append_right _
      (List.mem_map_of_mem _ (List.mem_filter.2 ⟨hs, hq⟩))
  · intro i j m s hi hj hlt
    by_contra hji
    push_neg at hji
    rcases Nat.lt_or_ge (i : Nat) (j : Nat) with hij | hij
    · have hrel := hsorted.rel_get_of_lt (a := i) (b := j) hij
      rw [hi, hj] at hrel
      unfold newerFirst at hrel
      simp only [movieItem, seriesItem] at hrel
      omega
    · have heq : (i : Nat) = (j : Nat) := Nat.le_antisymm hji hij
      have hfin : i = j := Fin.ext heq
      rw [hfin, hj] at hi
      have htype : ("series" : String) = "movie" := congrArg MediaItem.type hi
      exact absurd htype (by decide)

/-- C3 witness: with a movie added at time 1 and a series added at time 2,
the view lists the series strictly before the movie. -/
theorem combinedMedia_ordering_witness :
    List.Perm (combinedMediaView [movieM1] [catalogS2] none)
      (taggedMedia [movieM1] [catalogS2] none) ∧
    (∀ m ∈ [movieM1], matchesSearch none m.name = true →
        movieItem m ∈ combinedMediaView [movieM1] [catalogS2] none) ∧
    (∀ s ∈ [catalogS2], matchesSearch none s.name = true →
        seriesItem s ∈ combinedMediaView [movieM1] [catalogS2] none) ∧
    List.Sorted newerFirst (combinedMediaView [movieM1] [catalogS2] none) ∧
    (∀ (i j : Fin (combinedMediaView [movieM1] [catalogS2] none).length)
        (m : Movie) (s : CatalogSeries),
        (combinedMediaView [movieM1] [catalogS2] none).get i = movieItem m →
        (combinedMediaView [movieM1] [catalogS2] none).get j = seriesItem s →
        m.addedAt < s.addedAt → (j : Nat) < (i : Nat)) :=
  combinedMedia_ordering [movieM1] [catalogS2] none

end ContentServer
